import Mathlib

/-!
Verification of bidscoin dicomsort.py against its specification.

Shallow embedding of src/bidscoin/dicomsort.py: Python values are modelled by
PyVal (with Python truthiness), Python exceptions by PyErr, and the observable
side effects of a run (print, warnings.warn, os.makedirs, os.rename) by a list
of Effect values produced alongside an Except outcome.  An exception carries the
effects already performed before the raise, as in Python.
-/

namespace Dicomsort

/-- A Python value as used by this program: None, an int, or a str. -/
inductive PyVal where
  | vNone : PyVal
  | vInt (n : Int) : PyVal
  | vStr (s : String) : PyVal
deriving Repr, DecidableEq

/-- Python truthiness: None is falsy, an int is truthy iff nonzero, a str iff nonempty. -/
def PyVal.truthy : PyVal → Bool
  | .vNone => false
  | .vInt n => n != 0
  | .vStr s => s != ""

/-- Decimal rendering of an Int, as Python str() renders an int. -/
def intRepr (n : Int) : String :=
  if n < 0 then "-" ++ Nat.repr n.natAbs else Nat.repr n.natAbs

/-- Python str() of a value, as interpolated by an f-string field with no format spec. -/
def PyVal.pystr : PyVal → String
  | .vNone => "None"
  | .vInt n => intRepr n
  | .vStr s => s

/-- A Python exception of the kinds this program can raise. -/
inductive PyErr where
  | typeError (msg : String) : PyErr
  | valueError (msg : String) : PyErr
  | indexError : PyErr
deriving Repr, DecidableEq

/-- Python format spec 0wd applied to an int: zero-pad to width w, the sign before the zeros. -/
def pyFormatIntW (w : Nat) (n : Int) : String :=
  let sign := if n < 0 then "-" else ""
  let digits := Nat.repr n.natAbs
  let pad := w - (sign.length + digits.length)
  sign ++ String.mk (List.replicate pad '0') ++ digits

/-- Python format spec 0wd applied to a PyVal: only an int formats, a str raises
ValueError and None raises TypeError, as in CPython. -/
def pyFormatD (w : Nat) : PyVal → Except PyErr String
  | .vInt n => .ok (pyFormatIntW w n)
  | .vStr _ => .error (.valueError "Unknown format code d for object of type str")
  | .vNone => .error (.typeError "unsupported format string passed to NoneType.__format__")

/-- os.path.basename for '/'-separated paths: everything after the last separator. -/
def basename (p : String) : String :=
  String.mk ((p.data.reverse.takeWhile (fun c => c != '/')).reverse)

/-- os.path.dirname for '/'-separated paths: everything before the last separator. -/
def dirname (p : String) : String :=
  String.mk (((p.data.reverse.dropWhile (fun c => c != '/')).drop 1).reverse)

/-- os.path.join of a folder and a relative component. -/
def pjoin (a b : String) : String := a ++ "/" ++ b

/-- os.path.join of a folder and a list of relative components, as join(folder, *parts). -/
def joinParts (a : String) (parts : List String) : String := parts.foldl pjoin a

/-- The extension part of os.path.splitext: the suffix from the last dot of the
basename, the basename's leading dots not counting as an extension separator. -/
def splitext_ext (p : String) : String :=
  let cs := (basename p).data
  let rest := cs.dropWhile (fun c => c == '.')
  if rest.contains '.' then
    String.mk ('.' :: (rest.reverse.takeWhile (fun c => c != '.')).reverse)
  else ""

/-- Whether suf is a suffix of s, by comparing the reversed character lists; used to
instantiate the abstract file-matching predicate with the default pattern's meaning
(names ending in .IMA or .dcm). -/
def strEndsWith (s suf : String) : Bool :=
  s.data.reverse.take suf.length == suf.data.reverse

/-- The first argument of Python str.replace: a str, or (erroneously) a tuple of strs. -/
inductive PyReplaceArg where
  | ofStr (s : String) : PyReplaceArg
  | ofTuple (xs : List String) : PyReplaceArg

/-- Python str.replace(old, new): replaces every occurrence when old is a str;
called with a tuple it raises TypeError, since the argument must be a str. -/
def pyReplace (self : String) (old : PyReplaceArg) (new : String) : Except PyErr String :=
  match old with
  | .ofStr x => .ok (self.replace x new)
  | .ofTuple _ => .error (.typeError "replace() argument 1 must be str, not tuple")

/-- os.sep on the POSIX platforms the tool targets. -/
def os_sep : String := "/"

/-- dicomsort.py line 23: the tuple of special characters of cleanup. -/
def special_characters : List String := [os_sep, "*", "?", "\""]

/-- dicomsort.py lines 15-25, cleanup(name): strip the name and call str.replace
with the special_characters tuple and the empty string; special_characters is a
tuple, so str.replace raises TypeError. -/
def cleanup (name : String) : Except PyErr String :=
  pyReplace name.trim (PyReplaceArg.ofTuple special_characters) ""

/-- The sanitizer as the spec describes it: strip leading/trailing whitespace and
remove every occurrence of the special characters.  Stated only to compare with
the source's cleanup; the source is the authority. -/
def sanitizeSpec (name : String) : String :=
  special_characters.foldl (fun acc c => acc.replace c "") name.trim

/-- An observable side effect of a run: a print, a warnings.warn, an os.makedirs
or an os.rename call. -/
inductive Effect where
  | printed (msg : String) : Effect
  | warned (msg : String) : Effect
  | madeDirs (path : String) : Effect
  | renamed (src dst : String) : Effect
deriving Repr, DecidableEq

/-- The DICOM attributes of one file that dicomsort.py ever queries. -/
structure DicomFile where
  seriesNumber : PyVal
  seriesDescription : PyVal
  protocolName : PyVal
  acquisitionNumber : PyVal
  instanceNumber : PyVal
  imageNumber : PyVal
  patientName : PyVal
  patientsName : PyVal
deriving Repr, DecidableEq

/-- Modelled from the spec: the external metadata reader collaborator
(bids.get_dicomfield, not under src/) exposes get_field(tag_name, file_path) and
returns the tag's value or an absent (falsy) value when the tag is missing. -/
def get_dicomfield (field : String) (f : DicomFile) : PyVal :=
  if field = "SeriesNumber" then f.seriesNumber
  else if field = "SeriesDescription" then f.seriesDescription
  else if field = "ProtocolName" then f.protocolName
  else if field = "AcquisitionNumber" then f.acquisitionNumber
  else if field = "InstanceNumber" then f.instanceNumber
  else if field = "ImageNumber" then f.imageNumber
  else if field = "PatientName" then f.patientName
  else if field = "PatientsName" then f.patientsName
  else PyVal.vNone

/-- dicomsort.py line 74 warning text. -/
def msgNoSeriesNumber (dicomfile : String) : String :=
  "No SeriesNumber found, skipping: " ++ dicomfile

/-- dicomsort.py line 81 warning text (the typo SeriesDecription is the source's). -/
def msgNoSeriesDescr (dicomfile : String) : String :=
  "No SeriesDecription or ProtocolName found for: " ++ dicomfile

/-- dicomsort.py line 96 warning text, interpolating the field values. -/
def msgMissingFields (dicomfile : String)
    (patientname seriesnr seriesdescr acquisitionnr instancenr : PyVal) : String :=
  "Missing one or more crucial DICOM-fields, cannot safely rename " ++ dicomfile ++
  "\npatientname = " ++ patientname.pystr ++
  "\nseriesnumber = " ++ seriesnr.pystr ++
  "\nseriesdescription = " ++ seriesdescr.pystr ++
  "\nacquisitionnr = " ++ acquisitionnr.pystr ++
  "\ninstancenr = " ++ instancenr.pystr

/-- dicomsort.py line 49 warning text. -/
def msgMultipleSubjects (sessionfolder : String) : String :=
  "Abort DICOM sorting because multiple subjects found in " ++ sessionfolder

/-- dicomsort.py line 52 warning text. -/
def msgMultipleStudies (sessionfolder : String) : String :=
  "Abort DICOM sorting because multiple studies found in " ++ sessionfolder

/-- dicomsort.py line 98: the f-string
patientname_seriesnr:03d_seriesdescr_acquisitionnr:05d_instancenr:05d followed by ext,
the fields joined by underscores; a format spec on a non-int raises, in f-string order. -/
def renameTemplate (patientname seriesnr seriesdescr acquisitionnr instancenr : PyVal)
    (ext : String) : Except PyErr String :=
  match pyFormatD 3 seriesnr, pyFormatD 5 acquisitionnr, pyFormatD 5 instancenr with
  | .ok s3, .ok a5, .ok i5 =>
      .ok (patientname.pystr ++ "_" ++ s3 ++ "_" ++ seriesdescr.pystr ++ "_" ++
           a5 ++ "_" ++ i5 ++ ext)
  | .error e, _, _ => .error e
  | _, .error e, _ => .error e
  | _, _, .error e => .error e

/-- dicomsort.py lines 95-100: choose the output filename.  If rename is set and a
crucial field is falsy, warn and keep the original basename; if rename is set and
all fields are truthy, the filename is cleanup of the interpolated template;
otherwise the original basename. -/
def chooseFilename (rename : Bool) (dicomfile : String)
    (patientname seriesnr seriesdescr acquisitionnr instancenr : PyVal) (ext : String) :
    List Effect × Except PyErr String :=
  if rename && !(patientname.truthy && seriesnr.truthy && seriesdescr.truthy &&
                 acquisitionnr.truthy && instancenr.truthy) then
    ([Effect.warned (msgMissingFields dicomfile patientname seriesnr seriesdescr
        acquisitionnr instancenr)],
     Except.ok (basename dicomfile))
  else if rename then
    ([], (renameTemplate patientname seriesnr seriesdescr acquisitionnr instancenr ext).bind
           cleanup)
  else
    ([], Except.ok (basename dicomfile))

/-- dicomsort.py lines 72-113, the body of the per-file loop.  isdir models
os.path.isdir on the initial filesystem (the loop never re-checks a directory it
created itself, because every created seriesdir is appended to seriesdirs and is
consulted there first).  In the source the rename-only locals are bound only when
rename is set; computing them unconditionally is extensionally equal because every
use is guarded by rename.  Returns the effects performed and, unless an exception
is raised, the updated seriesdirs list. -/
def processFile (sessionfolder : String) (rename nosort : Bool) (isdir : String → Bool)
    (seriesdirs : List String) (dicomfile : String) (f : DicomFile) :
    List Effect × Except PyErr (List String) :=
  let seriesnr := get_dicomfield "SeriesNumber" f
  let seriesdescr0 := get_dicomfield "SeriesDescription" f
  if !seriesnr.truthy then
    ([Effect.warned (msgNoSeriesNumber dicomfile)], Except.ok seriesdirs)
  else
    let descrPair : PyVal × List Effect :=
      if !seriesdescr0.truthy then
        let protocolname := get_dicomfield "ProtocolName" f
        if !protocolname.truthy then
          (PyVal.vStr "unknown_protocol", [Effect.warned (msgNoSeriesDescr dicomfile)])
        else (protocolname, [])
      else (seriesdescr0, [])
    let seriesdescr := descrPair.1
    let effs1 := descrPair.2
    let acquisitionnr := get_dicomfield "AcquisitionNumber" f
    let instancenr0 := get_dicomfield "InstanceNumber" f
    let instancenr := if !instancenr0.truthy then get_dicomfield "ImageNumber" f
                      else instancenr0
    let patientname0 := get_dicomfield "PatientName" f
    let patientname := if !patientname0.truthy then get_dicomfield "PatientsName" f
                       else patientname0
    let ext0 := splitext_ext dicomfile
    let ext := if ext0 = "" then ".dcm" else ext0
    let fnPair := chooseFilename rename dicomfile patientname seriesnr seriesdescr
                    acquisitionnr instancenr ext
    match fnPair.2 with
    | .error e => (effs1 ++ fnPair.1, .error e)
    | .ok filename =>
      if nosort then
        (effs1 ++ fnPair.1 ++ [Effect.renamed dicomfile (pjoin sessionfolder filename)],
         Except.ok seriesdirs)
      else
        match (pyFormatD 3 seriesnr).bind
                (fun s3 => cleanup (s3 ++ "-" ++ seriesdescr.pystr)) with
        | .error e => (effs1 ++ fnPair.1, .error e)
        | .ok seriesdir =>
          let mk : List Effect × List String :=
            if !(seriesdirs.contains seriesdir) then
              ((if !(isdir (pjoin sessionfolder seriesdir)) then
                  [Effect.printed ("  Creating:  " ++ pjoin sessionfolder seriesdir),
                   Effect.madeDirs (pjoin sessionfolder seriesdir)]
                else []),
               seriesdirs ++ [seriesdir])
            else ([], seriesdirs)
          (effs1 ++ fnPair.1 ++ mk.1 ++
             [Effect.renamed dicomfile (pjoin (pjoin sessionfolder seriesdir) filename)],
           Except.ok mk.2)

/-- dicomsort.py lines 70-113, the per-file loop over the collected dicomfiles.
readDicom models reading the DICOM attributes at a path.  An exception aborts the
loop, keeping the effects already performed. -/
def sortFiles (sessionfolder : String) (rename nosort : Bool) (isdir : String → Bool)
    (readDicom : String → DicomFile) (seriesdirs : List String) :
    List String → List Effect × Except PyErr Unit
  | [] => ([], Except.ok ())
  | p :: rest =>
    let r := processFile sessionfolder rename nosort isdir seriesdirs p (readDicom p)
    match r.2 with
    | .error e => (r.1, .error e)
    | .ok sds =>
      let rr := sortFiles sessionfolder rename nosort isdir readDicom sds rest
      (r.1 ++ rr.1, rr.2)

/-- A DICOMDIR image record: the ReferencedFileID path components. -/
structure ImageRecord where
  ReferencedFileID : List String
deriving Repr, DecidableEq

/-- A DICOMDIR series record and its image children. -/
structure SeriesRecord where
  children : List ImageRecord
deriving Repr, DecidableEq

/-- A DICOMDIR study record and its series children. -/
structure StudyRecord where
  children : List SeriesRecord
deriving Repr, DecidableEq

/-- A DICOMDIR patient record and its study children. -/
structure PatientRecord where
  children : List StudyRecord
deriving Repr, DecidableEq

/-- A parsed DICOMDIR index file, as pydicom read_dicomdir returns it. -/
structure Dicomdir where
  patient_records : List PatientRecord
deriving Repr, DecidableEq

/-- dicomsort.py lines 38-113, sortsession when basename(sessionfolder) is DICOMDIR:
print the progress line, abort with a warning when the index file has more than one
patient or its first patient has more than one study (indexing the first patient of
an empty record list raises IndexError), otherwise collect every referenced file
relative to the index file's parent directory and run the per-file loop there. -/
def sortsessionDicomdir (sessionfolder0 : String) (d : Dicomdir) (rename nosort : Bool)
    (isdir : String → Bool) (readDicom : String → DicomFile) :
    List Effect × Except PyErr Unit :=
  let eff0 := [Effect.printed (">> processing: " ++ sessionfolder0)]
  if 1 < d.patient_records.length then
    (eff0 ++ [Effect.warned (msgMultipleSubjects sessionfolder0)], Except.ok ())
  else
    match d.patient_records with
    | [] => (eff0, Except.error PyErr.indexError)
    | p0 :: _ =>
      if 1 < p0.children.length then
        (eff0 ++ [Effect.warned (msgMultipleStudies sessionfolder0)], Except.ok ())
      else
        let sessionfolder := dirname sessionfolder0
        let dicomfiles := d.patient_records.flatMap (fun patient =>
          patient.children.flatMap (fun study =>
            study.children.flatMap (fun series =>
              series.children.map (fun image =>
                joinParts sessionfolder image.ReferencedFileID))))
        let r := sortFiles sessionfolder rename nosort isdir readDicom [] dicomfiles
        (eff0 ++ r.1, r.2)

/-- dicomsort.py lines 38-113, sortsession on a plain session folder: print the
progress line, keep the listing entries matched by the pattern (patMatch models
re.match of the configured pattern), join them to the folder and run the loop. -/
def sortsessionFolder (sessionfolder : String) (listing : List String)
    (patMatch : String → Bool) (rename nosort : Bool) (isdir : String → Bool)
    (readDicom : String → DicomFile) : List Effect × Except PyErr Unit :=
  let eff0 := [Effect.printed (">> processing: " ++ sessionfolder)]
  let dicomfiles := (listing.filter patMatch).map (fun dcmfile => pjoin sessionfolder dcmfile)
  let r := sortFiles sessionfolder rename nosort isdir readDicom [] dicomfiles
  (eff0 ++ r.1, r.2)

/-- An immediate subdirectory of the raw folder, with the names of its own
immediate subdirectories. -/
structure SubjectDir where
  name : String
  sesdirNames : List String
deriving Repr, DecidableEq

/-- Modelled from the spec: the external directory-listing collaborator
(bids.lsdirs, not under src/) lists the immediate subdirectories whose name
patMatch the glob, in filesystem order; for the globs p + star built here that is
exactly the names starting with p, so the function takes the p part directly. -/
def lsdirs (subdirNames : List String) (p : String) : List String :=
  subdirNames.filter (fun d => d.startsWith p)

/-- dicomsort.py lines 116-136, sortsessions: the dispatch to sortsession calls.
Returns the session folders passed to sortsession, in call order.  A Python string
is truthy iff nonempty, so `if subjectid:` is subjectid not equal to the empty
string; the two for loops accumulate left to right. -/
def sortsessions (rawfolder : String) (subdirsOfRaw : List SubjectDir)
    (subjectid sessionid : String) : List String :=
  if subjectid ≠ "" then
    (subdirsOfRaw.filter (fun sub => sub.name.startsWith subjectid)).foldl
      (fun acc subfolder =>
        if sessionid ≠ "" then
          acc ++ (lsdirs subfolder.sesdirNames sessionid).map
                   (fun sesfolder => pjoin (pjoin rawfolder subfolder.name) sesfolder)
        else
          acc ++ [pjoin rawfolder subfolder.name]) []
  else
    [rawfolder]

/-- The session-enumerator dispatch as the spec describes it, for comparison with
sortsessions: no subject prefix gives the root itself; a subject prefix gives one
call per prefix-matching immediate subdirectory, refined by the session prefix
when one is given. -/
def sessionsDescribed (rawfolder : String) (subdirsOfRaw : List SubjectDir)
    (subjectid sessionid : String) : List String :=
  if subjectid = "" then [rawfolder]
  else
    (subdirsOfRaw.filter (fun sub => sub.name.startsWith subjectid)).flatMap
      (fun sub =>
        if sessionid = "" then [pjoin rawfolder sub.name]
        else (sub.sesdirNames.filter (fun d => d.startsWith sessionid)).map
               (fun ses => pjoin (pjoin rawfolder sub.name) ses))

end Dicomsort

namespace Dicomsort

theorem get_field_seriesNumber (f : DicomFile) :
    get_dicomfield "SeriesNumber" f = f.seriesNumber := rfl

theorem get_field_seriesDescription (f : DicomFile) :
    get_dicomfield "SeriesDescription" f = f.seriesDescription := rfl

theorem get_field_protocolName (f : DicomFile) :
    get_dicomfield "ProtocolName" f = f.protocolName := rfl

theorem get_field_acquisitionNumber (f : DicomFile) :
    get_dicomfield "AcquisitionNumber" f = f.acquisitionNumber := rfl

theorem get_field_instanceNumber (f : DicomFile) :
    get_dicomfield "InstanceNumber" f = f.instanceNumber := rfl

theorem get_field_imageNumber (f : DicomFile) :
    get_dicomfield "ImageNumber" f = f.imageNumber := rfl

theorem get_field_patientName (f : DicomFile) :
    get_dicomfield "PatientName" f = f.patientName := rfl

theorem get_field_patientsName (f : DicomFile) :
    get_dicomfield "PatientsName" f = f.patientsName := rfl

theorem foldl_append_flatMap {α β : Type} (g : α → List β) :
    ∀ (l : List α) (acc : List β),
      l.foldl (fun a x => a ++ g x) acc = acc ++ l.flatMap g := by
  intro l
  induction l with
  | nil => intro acc; simp
  | cons x xs ih => intro acc; simp [List.foldl_cons, ih]

end Dicomsort

namespace Dicomsort

/-- C1: refuted: the name sanitizer does not return a cleaned string for any
input; cleanup calls str.replace with the special_characters tuple, which raises
TypeError on every input, contradicting its own docstring and the claimed
sanitizer property. -/
theorem cleanup_raises_typeerror_on_every_input :
    ∀ name : String,
      cleanup name
        = Except.error (PyErr.typeError "replace() argument 1 must be str, not tuple") :=
  fun _ => rfl

/-- C2: with rename requested and all crucial fields truthy the output filename
is cleanup (the sanitizer) applied to the interpolated template, and at
PatientName Doe^John, SeriesNumber 7, SeriesDescription T1 MPRAGE,
AcquisitionNumber 1, InstanceNumber 23 and extension .dcm the interpolated
template is exactly Doe^John_007_T1 MPRAGE_00001_00023.dcm. -/
theorem rename_filename_is_sanitized_template :
    (∀ (dicomfile : String) (pn sn sd an inr : PyVal) (ext : String),
        (pn.truthy && sn.truthy && sd.truthy && an.truthy && inr.truthy) = true →
        chooseFilename true dicomfile pn sn sd an inr ext
          = ([], (renameTemplate pn sn sd an inr ext).bind cleanup))
    ∧ renameTemplate (PyVal.vStr "Doe^John") (PyVal.vInt 7) (PyVal.vStr "T1 MPRAGE")
        (PyVal.vInt 1) (PyVal.vInt 23) ".dcm"
        = Except.ok "Doe^John_007_T1 MPRAGE_00001_00023.dcm" := by
  constructor
  · intro dicomfile pn sn sd an inr ext h
    simp [chooseFilename, h]
  · rfl

/-- Witness for C2 at the claim's concrete field values. -/
theorem rename_filename_is_sanitized_template_witness :
    chooseFilename true "sess/i0023.dcm" (PyVal.vStr "Doe^John") (PyVal.vInt 7)
        (PyVal.vStr "T1 MPRAGE") (PyVal.vInt 1) (PyVal.vInt 23) ".dcm"
      = ([], (renameTemplate (PyVal.vStr "Doe^John") (PyVal.vInt 7)
                (PyVal.vStr "T1 MPRAGE") (PyVal.vInt 1) (PyVal.vInt 23) ".dcm").bind
               cleanup) :=
  rename_filename_is_sanitized_template.1 "sess/i0023.dcm" (PyVal.vStr "Doe^John")
    (PyVal.vInt 7) (PyVal.vStr "T1 MPRAGE") (PyVal.vInt 1) (PyVal.vInt 23) ".dcm"
    (by decide)

/-- C3: refuted as stated: with no-sort disabled the series-subdirectory name is
computed by cleanup, which raises TypeError, so the file is never moved into a
series subdirectory, no directory is created and nothing is tracked; evaluated at
a file with SeriesNumber 7 and SeriesDescription T1 MPRAGE the step aborts with
no filesystem effect at all. -/
theorem series_subdir_move_aborts_in_cleanup :
    processFile "sess" false false (fun _ => false) [] "sess/i001.dcm"
        ⟨PyVal.vInt 7, PyVal.vStr "T1 MPRAGE", PyVal.vNone, PyVal.vNone, PyVal.vNone,
         PyVal.vNone, PyVal.vNone, PyVal.vNone⟩
      = ([], Except.error (PyErr.typeError "replace() argument 1 must be str, not tuple")) :=
  rfl

end Dicomsort

namespace Dicomsort

/-- C4: an index file with more than one patient record, or whose single patient
holds more than one study, makes sortsession return after exactly one warning,
with no directory created and no file moved (the progress print is the only
other effect). -/
theorem dicomdir_multiple_entities_abort (sessionfolder : String) (d : Dicomdir)
    (rename nosort : Bool) (isdir : String → Bool) (readDicom : String → DicomFile)
    (h : 1 < d.patient_records.length ∨
         ∃ p, d.patient_records = [p] ∧ 1 < p.children.length) :
    ∃ m, sortsessionDicomdir sessionfolder d rename nosort isdir readDicom
      = ([Effect.printed (">> processing: " ++ sessionfolder), Effect.warned m],
         Except.ok ()) := by
  rcases h with h | ⟨p, hp, hc⟩
  · exact ⟨msgMultipleSubjects sessionfolder, by simp [sortsessionDicomdir, h]⟩
  · exact ⟨msgMultipleStudies sessionfolder, by simp [sortsessionDicomdir, hp, hc]⟩

/-- Witness for C4: a DICOMDIR with two patient records. -/
theorem dicomdir_multiple_entities_abort_witness :
    ∃ m, sortsessionDicomdir "root/DICOMDIR" ⟨[⟨[]⟩, ⟨[]⟩]⟩ false false (fun _ => false)
        (fun _ => ⟨PyVal.vNone, PyVal.vNone, PyVal.vNone, PyVal.vNone, PyVal.vNone,
                   PyVal.vNone, PyVal.vNone, PyVal.vNone⟩)
      = ([Effect.printed (">> processing: " ++ "root/DICOMDIR"), Effect.warned m],
         Except.ok ()) :=
  dicomdir_multiple_entities_abort "root/DICOMDIR" ⟨[⟨[]⟩, ⟨[]⟩]⟩ false false
    (fun _ => false)
    (fun _ => ⟨PyVal.vNone, PyVal.vNone, PyVal.vNone, PyVal.vNone, PyVal.vNone,
               PyVal.vNone, PyVal.vNone, PyVal.vNone⟩)
    (Or.inl (by decide))

/-- C5: a file whose SeriesNumber is absent (falsy) is skipped: the warning is the
only effect, no move and no directory creation happen, the seriesdirs tracking is
unchanged, and the loop continues with the remaining files. -/
theorem missing_seriesnumber_skips_file (sessionfolder : String) (rename nosort : Bool)
    (isdir : String → Bool) (readDicom : String → DicomFile) (seriesdirs : List String)
    (dicomfile : String)
    (h : ((readDicom dicomfile).seriesNumber).truthy = false) :
    processFile sessionfolder rename nosort isdir seriesdirs dicomfile (readDicom dicomfile)
      = ([Effect.warned (msgNoSeriesNumber dicomfile)], Except.ok seriesdirs)
    ∧ ∀ rest : List String,
        sortFiles sessionfolder rename nosort isdir readDicom seriesdirs (dicomfile :: rest)
          = (Effect.warned (msgNoSeriesNumber dicomfile)
               :: (sortFiles sessionfolder rename nosort isdir readDicom seriesdirs rest).1,
             (sortFiles sessionfolder rename nosort isdir readDicom seriesdirs rest).2) := by
  have h1 : processFile sessionfolder rename nosort isdir seriesdirs dicomfile
      (readDicom dicomfile)
      = ([Effect.warned (msgNoSeriesNumber dicomfile)], Except.ok seriesdirs) := by
    simp [processFile, get_field_seriesNumber, h]
  refine ⟨h1, fun rest => ?_⟩
  simp [sortFiles, h1]

/-- Witness for C5: a file with every attribute absent is skipped with the warning
as the only effect. -/
theorem missing_seriesnumber_skips_file_witness :
    processFile "sess" false false (fun _ => false) [] "sess/bad.dcm"
        ⟨PyVal.vNone, PyVal.vNone, PyVal.vNone, PyVal.vNone, PyVal.vNone, PyVal.vNone,
         PyVal.vNone, PyVal.vNone⟩
      = ([Effect.warned (msgNoSeriesNumber "sess/bad.dcm")], Except.ok []) :=
  (missing_seriesnumber_skips_file "sess" false false (fun _ => false)
     (fun _ => ⟨PyVal.vNone, PyVal.vNone, PyVal.vNone, PyVal.vNone, PyVal.vNone,
                PyVal.vNone, PyVal.vNone, PyVal.vNone⟩)
     [] "sess/bad.dcm" (by decide)).1

end Dicomsort

namespace Dicomsort

/-- C6: with rename requested and a crucial field falsy, the filename-selection
step warns with a message interpolating the field values and yields the file's
original basename, raising no exception; and any file whose processing step
completes makes the loop continue with the remaining files. -/
theorem rename_missing_fields_keep_basename (dicomfile : String)
    (pn sn sd an inr : PyVal) (ext : String)
    (h : (pn.truthy && sn.truthy && sd.truthy && an.truthy && inr.truthy) = false) :
    chooseFilename true dicomfile pn sn sd an inr ext
      = ([Effect.warned (msgMissingFields dicomfile pn sn sd an inr)],
         Except.ok (basename dicomfile))
    ∧ ∀ (sessionfolder : String) (rename nosort : Bool) (isdir : String → Bool)
        (readDicom : String → DicomFile) (seriesdirs sds : List String)
        (eff : List Effect) (rest : List String),
        processFile sessionfolder rename nosort isdir seriesdirs dicomfile
            (readDicom dicomfile) = (eff, Except.ok sds) →
        sortFiles sessionfolder rename nosort isdir readDicom seriesdirs (dicomfile :: rest)
          = (eff ++ (sortFiles sessionfolder rename nosort isdir readDicom sds rest).1,
             (sortFiles sessionfolder rename nosort isdir readDicom sds rest).2) := by
  constructor
  · simp [chooseFilename, h]
  · intro sessionfolder rename nosort isdir readDicom seriesdirs sds eff rest hpf
    simp [sortFiles, hpf]

/-- Witness for C6: AcquisitionNumber absent, every other crucial field present. -/
theorem rename_missing_fields_keep_basename_witness :
    chooseFilename true "sess/i001.dcm" (PyVal.vStr "Doe^John") (PyVal.vInt 7)
        (PyVal.vStr "T1 MPRAGE") PyVal.vNone (PyVal.vInt 23) ".dcm"
      = ([Effect.warned (msgMissingFields "sess/i001.dcm" (PyVal.vStr "Doe^John")
            (PyVal.vInt 7) (PyVal.vStr "T1 MPRAGE") PyVal.vNone (PyVal.vInt 23))],
         Except.ok (basename "sess/i001.dcm")) :=
  (rename_missing_fields_keep_basename "sess/i001.dcm" (PyVal.vStr "Doe^John")
     (PyVal.vInt 7) (PyVal.vStr "T1 MPRAGE") PyVal.vNone (PyVal.vInt 23) ".dcm"
     (by decide)).1

/-- C7: refuted as stated: the sorted state the claim assumes after the first run
is never reached, because computing the series-directory name calls cleanup,
which raises TypeError; on a session folder with two pattern-matching files the
run aborts with only the progress print, so no file leaves the top-level listing
and the second run faces the same listing. -/
theorem first_run_aborts_before_sorting :
    sortsessionFolder "sess" ["i001.dcm", "i002.dcm", "notes.txt"]
        (fun nm => strEndsWith nm ".dcm") false false (fun _ => false)
        (fun _ => ⟨PyVal.vInt 3, PyVal.vStr "Localizer", PyVal.vNone, PyVal.vNone,
                   PyVal.vNone, PyVal.vNone, PyVal.vNone, PyVal.vNone⟩)
      = ([Effect.printed (">> processing: " ++ "sess")],
         Except.error (PyErr.typeError "replace() argument 1 must be str, not tuple")) :=
  rfl

end Dicomsort

namespace Dicomsort

/-- C8: the truthiness-based presence checks conflate absent with zero: a file
whose SeriesNumber is present with value 0 is skipped with the same warning as an
absent one and processed identically to one with no SeriesNumber at all; with
rename requested, a present AcquisitionNumber 0 makes the rename fall back to the
original basename with a warning; and a present InstanceNumber 0 makes the whole
processing step identical to an absent InstanceNumber. -/
theorem truthiness_conflates_zero_with_absent :
    (∀ (sessionfolder : String) (rename nosort : Bool) (isdir : String → Bool)
       (seriesdirs : List String) (dicomfile : String) (f : DicomFile),
       f.seriesNumber = PyVal.vInt 0 →
       processFile sessionfolder rename nosort isdir seriesdirs dicomfile f
         = ([Effect.warned (msgNoSeriesNumber dicomfile)], Except.ok seriesdirs)
       ∧ processFile sessionfolder rename nosort isdir seriesdirs dicomfile
           { f with seriesNumber := PyVal.vNone }
         = processFile sessionfolder rename nosort isdir seriesdirs dicomfile f)
    ∧ (∀ (dicomfile : String) (pn sn sd inr : PyVal) (ext : String),
       chooseFilename true dicomfile pn sn sd (PyVal.vInt 0) inr ext
         = ([Effect.warned (msgMissingFields dicomfile pn sn sd (PyVal.vInt 0) inr)],
            Except.ok (basename dicomfile)))
    ∧ (∀ (sessionfolder : String) (rename nosort : Bool) (isdir : String → Bool)
       (seriesdirs : List String) (dicomfile : String) (f : DicomFile),
       processFile sessionfolder rename nosort isdir seriesdirs dicomfile
           { f with instanceNumber := PyVal.vInt 0 }
         = processFile sessionfolder rename nosort isdir seriesdirs dicomfile
           { f with instanceNumber := PyVal.vNone }) := by
  refine ⟨?_, ?_, ?_⟩
  · intro sessionfolder rename nosort isdir seriesdirs dicomfile f hf
    constructor
    · simp [processFile, get_field_seriesNumber, hf, PyVal.truthy]
    · simp [processFile, get_field_seriesNumber, hf, PyVal.truthy]
  · intro dicomfile pn sn sd inr ext
    simp [chooseFilename, PyVal.truthy]
  · intro sessionfolder rename nosort isdir seriesdirs dicomfile f
    rfl

/-- Witness for C8: a file with SeriesNumber present and equal to 0 is skipped. -/
theorem truthiness_conflates_zero_with_absent_witness :
    processFile "sess" false false (fun _ => false) [] "sess/z.dcm"
        ⟨PyVal.vInt 0, PyVal.vStr "T1", PyVal.vNone, PyVal.vNone, PyVal.vNone,
         PyVal.vNone, PyVal.vNone, PyVal.vNone⟩
      = ([Effect.warned (msgNoSeriesNumber "sess/z.dcm")], Except.ok []) :=
  (truthiness_conflates_zero_with_absent.1 "sess" false false (fun _ => false) []
     "sess/z.dcm"
     ⟨PyVal.vInt 0, PyVal.vStr "T1", PyVal.vNone, PyVal.vNone, PyVal.vNone,
      PyVal.vNone, PyVal.vNone, PyVal.vNone⟩ rfl).1

/-- C9: the session-enumerator dispatch of sortsessions coincides with the spec's
description: no subject prefix gives exactly one call on the root; a subject
prefix gives one call per prefix-matching immediate subdirectory; with a session
prefix as well, one call per session-prefix-matching subdirectory of each
matching subject directory. -/
theorem sortsessions_dispatch (rawfolder : String) (subs : List SubjectDir)
    (subjectid sessionid : String) :
    sortsessions rawfolder subs subjectid sessionid
      = sessionsDescribed rawfolder subs subjectid sessionid := by
  by_cases hs : subjectid = ""
  · simp [sortsessions, sessionsDescribed, hs]
  · by_cases hx : sessionid = ""
    · simp only [sortsessions, sessionsDescribed, hs, hx, lsdirs, ne_eq,
        not_true_eq_false, if_false, not_false_eq_true, if_true]
      rw [foldl_append_flatMap (fun sub : SubjectDir => [pjoin rawfolder sub.name])]
      simp
    · simp only [sortsessions, sessionsDescribed, hs, hx, lsdirs, ne_eq,
        not_true_eq_false, if_false, not_false_eq_true, if_true]
      rw [foldl_append_flatMap]
      simp

/-- C10: an index file whose patient-record list is empty makes sortsession raise
IndexError: the first patient record is indexed without an emptiness check, so
the progress print is the only effect and no warning is emitted, unlike the
multi-patient case. -/
theorem empty_dicomdir_raises_indexerror (sessionfolder : String) (d : Dicomdir)
    (rename nosort : Bool) (isdir : String → Bool) (readDicom : String → DicomFile)
    (h : d.patient_records = []) :
    sortsessionDicomdir sessionfolder d rename nosort isdir readDicom
      = ([Effect.printed (">> processing: " ++ sessionfolder)],
         Except.error PyErr.indexError) := by
  simp [sortsessionDicomdir, h]

/-- Witness for C10: a DICOMDIR with no patient records. -/
theorem empty_dicomdir_raises_indexerror_witness :
    sortsessionDicomdir "root/DICOMDIR" ⟨[]⟩ false false (fun _ => false)
        (fun _ => ⟨PyVal.vNone, PyVal.vNone, PyVal.vNone, PyVal.vNone, PyVal.vNone,
                   PyVal.vNone, PyVal.vNone, PyVal.vNone⟩)
      = ([Effect.printed (">> processing: " ++ "root/DICOMDIR")],
         Except.error PyErr.indexError) :=
  empty_dicomdir_raises_indexerror "root/DICOMDIR" ⟨[]⟩ false false (fun _ => false)
    (fun _ => ⟨PyVal.vNone, PyVal.vNone, PyVal.vNone, PyVal.vNone, PyVal.vNone,
               PyVal.vNone, PyVal.vNone, PyVal.vNone⟩) rfl

end Dicomsort
